import Mathlib

/-!
Shallow embedding of the pocketbase-client library (Go) for checking its
natural-language specification.

The client talks to a remote server through an HTTP transport (go-resty).
We model the transport as an oracle `Net : Request → TransportResult` and
JSON decoding (`json.Unmarshal`) as oracle functions `String → Option α`;
each operation is a pure function of the oracles, the shared `Session`
state and its arguments, returning the call's result, the updated session
and the list of HTTP requests issued (in order).  Go shares the `Session`
by pointer across all accessors; we model that sharing by threading the
single `Session` value: the returned session is the state every accessor
sees afterwards.
-/

namespace PB

/-- An HTTP response as seen by client code (status code and raw body). -/
structure HTTPResponse where
  statusCode : Nat
  body : String
  deriving Repr, DecidableEq

/-- Result of handing a request to the transport: either a response
(of any status) or a local transport failure. -/
inductive TransportResult where
  | ok (resp : HTTPResponse)
  | fail (msg : String)
  deriving Repr, DecidableEq

/-- One HTTP request as built by the client: method, full URL, multipart
form fields (in source order) and the optional per-request bearer token. -/
structure Request where
  method : String
  url : String
  form : List (String × String)
  authToken : Option String
  deriving Repr, DecidableEq

/-- The network oracle. -/
abbrev Net := Request → TransportResult

/-- go-resty `Response.IsError`: true exactly when the status code is > 399. -/
def HTTPResponse.isError (r : HTTPResponse) : Bool :=
  decide (399 < r.statusCode)

/-- The error values the library returns, one constructor per distinct wrap
in the source: `transport` for a failed send (wraps the transport error),
`server` for a response with error status (wraps `ErrInvalidResponse`,
carrying status code and body), `decodeFail` for `json.Unmarshal` failure,
`authorization` for a rejected login exchange inside the authorizer, and
`invalidArgument` for locally rejected arguments. -/
inductive PBError where
  | transport (op : String) (msg : String)
  | server (op : String) (status : Nat) (body : String)
  | decodeFail (op : String) (body : String)
  | authorization (status : Nat) (body : String)
  | invalidArgument (msg : String)
  deriving Repr, DecidableEq

/-- The five error kinds of the spec's taxonomy. -/
inductive ErrKind where
  | transportFailed
  | serverRejected
  | decodeFailed
  | authorizationFailed
  | invalidArgument
  deriving Repr, DecidableEq

/-- Kind of an error value, for caller-side error-kind inspection. -/
def PBError.kind : PBError → ErrKind
  | .transport _ _ => .transportFailed
  | .server _ _ _ => .serverRejected
  | .decodeFail _ _ => .decodeFailed
  | .authorization _ _ => .authorizationFailed
  | .invalidArgument _ => .invalidArgument

/-! ### Go string primitives used by the source (modelled for ASCII-relevant cases) -/

/-- Go `unicode.ToLower` restricted to the ASCII range (the only range the
claims exercise): uppercase ASCII letters move down by 32, everything else
is unchanged. -/
def goLowerChar (c : Char) : Char :=
  if 'A' ≤ c ∧ c ≤ 'Z' then Char.ofNat (c.toNat + 32) else c

/-- Go `strings.ToLower`, character by character. -/
def goToLower (s : String) : String :=
  ⟨s.data.map goLowerChar⟩

/-- Drop leading whitespace characters from a character list. -/
def dropWhitespaceLeft : List Char → List Char
  | [] => []
  | c :: t => if c.isWhitespace then dropWhitespaceLeft t else c :: t

/-- Go `strings.TrimSpace` (modelled for ASCII whitespace): strip leading
and trailing whitespace. -/
def goTrimSpace (s : String) : String :=
  ⟨(dropWhitespaceLeft (dropWhitespaceLeft s.data).reverse).reverse⟩

/-- Needle-leads test on character lists: `leadsWith n h` holds when `n`
is an initial segment of `h`. -/
def leadsWith : List Char → List Char → Bool
  | [], _ => true
  | _ :: _, [] => false
  | a :: as, b :: bs => a == b && leadsWith as bs

/-- Substring occurrence on character lists (needle first). -/
def subListIn (needle : List Char) : List Char → Bool
  | [] => needle.isEmpty
  | h :: t => leadsWith needle (h :: t) || subListIn needle t

/-- Go `strings.Contains s sub`. -/
def goContains (s sub : String) : Bool :=
  subListIn sub.data s.data

/-- Go `strings.HasSuffix s pat` (used only to state the spec's wording). -/
def goEndsWith (s pat : String) : Bool :=
  leadsWith pat.data.reverse s.data.reverse

/-- UTF-8 encoding of one unicode scalar value as a list of byte values. -/
def utf8Bytes (n : Nat) : List Nat :=
  if n < 128 then [n]
  else if n < 2048 then [192 + n / 64, 128 + n % 64]
  else if n < 65536 then [224 + n / 4096, 128 + n / 64 % 64, 128 + n % 64]
  else [240 + n / 262144, 128 + n / 4096 % 64, 128 + n / 64 % 64, 128 + n % 64]

/-- The UTF-8 bytes of a string. -/
def stringUTF8 (s : String) : List Nat :=
  (s.data.map (fun c => utf8Bytes c.toNat)).flatten

/-- Uppercase hexadecimal digit for a value below 16. -/
def upperHexDigit (n : Nat) : Char :=
  if n < 10 then Char.ofNat (48 + n) else Char.ofNat (55 + n)

/-- Go `url.QueryEscape`, per byte: unreserved bytes (ASCII letters, digits,
`-` `_` `.` `~`) stay, a space becomes `+`, every other byte becomes `%XX`
with uppercase hex. -/
def queryEscapeByte (b : Nat) : List Char :=
  if b = 32 then ['+']
  else if (65 ≤ b ∧ b ≤ 90) ∨ (97 ≤ b ∧ b ≤ 122) ∨ (48 ≤ b ∧ b ≤ 57) ∨
      b = 45 ∨ b = 95 ∨ b = 46 ∨ b = 126 then [Char.ofNat b]
  else ['%', upperHexDigit (b / 16), upperHexDigit (b % 16)]

/-- Go `url.QueryEscape` on a whole string. -/
def queryEscape (s : String) : String :=
  ⟨((stringUTF8 s).map queryEscapeByte).flatten⟩

/-! ### Session and the authorizer gate -/

/-- The session's credential source. A pre-supplied token is represented by
constructing the session with a non-empty `token` field, as in the source's
client options. -/
inductive CredSource where
  | none
  | adminEmailPassword (email : String) (password : String)
  deriving Repr, DecidableEq

/-- The shared session: base endpoint, current bearer token (mutable,
shared by every accessor) and the credential source. -/
structure Session where
  url : String
  token : String
  cred : CredSource
  deriving Repr, DecidableEq

/-- The admin login request issued by the authorizer's login exchange. -/
def adminAuthReq (s : Session) (email password : String) : Request :=
  { method := "POST"
    url := s.url ++ "/api/admins/auth-with-password"
    form := [("identity", email), ("password", password)]
    authToken := Option.none }

/-- Modelled from the spec: `Client.Authorize` lives in `client.go`, which
is not under `src/` (only its callers are).  Spec §4.1: if the session
already holds a non-empty token, return success immediately with no network
call; if the credential source is none, return success without a token; if
it is admin email/password, perform one login request, on success store the
returned token into the shared session, on failure return an error without
mutating the session.  `adec` models decoding the login response body into
the returned token. -/
def authorize (net : Net) (adec : String → Option String) (s : Session) :
    Except PBError Unit × Session × List Request :=
  if s.token ≠ "" then (Except.ok (), s, [])
  else
    match s.cred with
    | CredSource.none => (Except.ok (), s, [])
    | CredSource.adminEmailPassword email password =>
      let req := adminAuthReq s email password
      match net req with
      | TransportResult.fail m => (Except.error (PBError.transport "authorize" m), s, [req])
      | TransportResult.ok r =>
        if r.isError then (Except.error (PBError.authorization r.statusCode r.body), s, [req])
        else
          match adec r.body with
          | Option.none => (Except.error (PBError.decodeFail "authorize" r.body), s, [req])
          | Option.some t => (Except.ok (), { s with token := t }, [req])

/-! ### Collection accessor (collection.go, src/unnamed/part_000) -/

/-- A typed collection accessor.  The Go `Collection[T]` embeds the shared
`*Client`; here the session is threaded separately through every call, and
the derived base path is stored as in `CollectionSet`. -/
structure Collection where
  name : String
  baseCollectionPath : String
  deriving Repr, DecidableEq

/-- `CollectionSet` from collection.go. -/
def CollectionSet (s : Session) (collection : String) : Collection :=
  { name := collection
    baseCollectionPath := s.url ++ "/api/collections/" ++ queryEscape collection }

/-- `baseCrudPath` from src/unnamed/part_000. -/
def baseCrudPath (c : Collection) : String :=
  c.baseCollectionPath ++ "/records/"

/-- The result of one client operation: the call's return value or error,
the session afterwards, and the HTTP requests issued (in order). -/
structure OpResult (α : Type) where
  res : Except PBError α
  sess : Session
  trace : List Request

/-- The auth record envelope of auth responses. -/
structure Record where
  avatar : String
  collectionID : String
  collectionName : String
  created : String
  email : String
  emailVisibility : Bool
  id : String
  name : String
  updated : String
  username : String
  verified : Bool
  deriving Repr, DecidableEq

/-- Response shape of `AuthWithPassword`. -/
structure AuthWithPasswordResponse where
  record : Record
  token : String
  deriving Repr, DecidableEq

/-- Response shape of `AuthWithOAuth2Code`. -/
structure AuthWithOauth2Response where
  token : String
  deriving Repr, DecidableEq

/-- Response shape of `AuthRefresh` (the Go source inlines the record
struct; its fields are those of `Record`). -/
structure AuthRefreshResponse where
  record : Record
  token : String
  deriving Repr, DecidableEq

/-- One entry of the `ListAuthMethods` response. -/
structure AuthProvider where
  name : String
  displayName : String
  state : String
  authURL : String
  codeVerifier : String
  codeChallenge : String
  codeChallengeMethod : String
  deriving Repr, DecidableEq

/-- Response shape of `ListAuthMethods`. -/
structure AuthMethod where
  authProviders : List AuthProvider
  usernamePassword : Bool
  emailPassword : Bool
  onlyVerified : Bool
  deriving Repr, DecidableEq

/-- One entry of the `ListExternalAuths` response. -/
structure ExternalAuthRequest where
  id : String
  created : String
  updated : String
  recordID : String
  collectionID : String
  provider : String
  providerID : String
  deriving Repr, DecidableEq

/-! The request each operation builds, named so the theorems can speak
about the exact request issued. -/

/-- Request built by `ListAuthMethods`. -/
def listAuthMethodsReq (c : Collection) : Request :=
  { method := "GET", url := c.baseCollectionPath ++ "/auth-methods",
    form := [], authToken := Option.none }

/-- Request built by `AuthWithPassword`. -/
def authWithPasswordReq (c : Collection) (username password : String) : Request :=
  { method := "POST", url := c.baseCollectionPath ++ "/auth-with-password",
    form := [("identity", username), ("password", password)], authToken := Option.none }

/-- Request built by `AuthWithOAuth2Code`. -/
def authWithOAuth2Req (c : Collection) (provider code codeVerifier redirectURL : String) :
    Request :=
  { method := "POST", url := c.baseCollectionPath ++ "/auth-with-oauth2",
    form := [("provider", provider), ("code", code), ("codeVerifier", codeVerifier),
             ("redirectUrl", redirectURL)],
    authToken := Option.none }

/-- Request built by `AuthRefresh` (carries the session's current token). -/
def authRefreshReq (c : Collection) (tok : String) : Request :=
  { method := "POST", url := c.baseCollectionPath ++ "/auth-refresh",
    form := [], authToken := Option.some tok }

/-- Request built by `RequestVerification`. -/
def requestVerificationReq (c : Collection) (email : String) : Request :=
  { method := "POST", url := c.baseCollectionPath ++ "/request-verification",
    form := [("email", email)], authToken := Option.none }

/-- Request built by `ConfirmVerification`. -/
def confirmVerificationReq (c : Collection) (verificationToken : String) : Request :=
  { method := "POST", url := c.baseCollectionPath ++ "/confirm-verification",
    form := [("token", verificationToken)], authToken := Option.none }

/-- Request built by `RequestPasswordReset`. -/
def requestPasswordResetReq (c : Collection) (email : String) : Request :=
  { method := "POST", url := c.baseCollectionPath ++ "/request-password-reset",
    form := [("email", email)], authToken := Option.none }

/-- Request built by `ConfirmPasswordReset`. -/
def confirmPasswordResetReq (c : Collection) (tok password passwordConfirm : String) : Request :=
  { method := "POST", url := c.baseCollectionPath ++ "/confirm-password-reset",
    form := [("token", tok), ("password", password), ("passwordConfirm", passwordConfirm)],
    authToken := Option.none }

/-- Request built by `RequestEmailChange` (carries the session's token). -/
def requestEmailChangeReq (c : Collection) (newEmail tok : String) : Request :=
  { method := "POST", url := c.baseCollectionPath ++ "/request-email-change",
    form := [("newEmail", newEmail)], authToken := Option.some tok }

/-- Request built by `ConfirmEmailChange` (carries the session's token). -/
def confirmEmailChangeReq (c : Collection) (emailChangeToken password tok : String) : Request :=
  { method := "POST", url := c.baseCollectionPath ++ "/confirm-email-change",
    form := [("token", emailChangeToken), ("password", password)],
    authToken := Option.some tok }

/-- Request built by `ListExternalAuths`. -/
def listExternalAuthsReq (c : Collection) (recordID : String) : Request :=
  { method := "GET", url := baseCrudPath c ++ queryEscape recordID ++ "/external-auths",
    form := [], authToken := Option.none }

/-- Request built by `UnlinkExternalAuth`. -/
def unlinkExternalAuthReq (c : Collection) (recordID provider : String) : Request :=
  { method := "DELETE",
    url := baseCrudPath c ++ queryEscape recordID ++ "/external-auths/" ++ queryEscape provider,
    form := [], authToken := Option.none }

/-- Request built by `One` (resty path parameters substituted into the
`/api/collections/.../records/...` template). -/
def oneReq (s : Session) (c : Collection) (id : String) : Request :=
  { method := "GET",
    url := s.url ++ "/api/collections/" ++ c.name ++ "/records/" ++ id,
    form := [], authToken := Option.none }

/-- `Collection.ListAuthMethods` from src/unnamed/part_000. -/
def ListAuthMethods (net : Net) (adec : String → Option String)
    (dec : String → Option AuthMethod) (c : Collection) (s : Session) :
    OpResult AuthMethod :=
  match authorize net adec s with
  | (Except.error e, s1, tr) => ⟨Except.error e, s1, tr⟩
  | (Except.ok _, s1, tr) =>
    let req := listAuthMethodsReq c
    match net req with
    | TransportResult.fail m =>
      ⟨Except.error (PBError.transport "ListAuthMethods" m), s1, tr ++ [req]⟩
    | TransportResult.ok r =>
      if r.isError then
        ⟨Except.error (PBError.server "ListAuthMethods" r.statusCode r.body), s1, tr ++ [req]⟩
      else
        match dec r.body with
        | Option.none => ⟨Except.error (PBError.decodeFail "ListAuthMethods" r.body), s1, tr ++ [req]⟩
        | Option.some response => ⟨Except.ok response, s1, tr ++ [req]⟩

/-- `Collection.AuthWithPassword` from src/unnamed/part_000: on success the
decoded token is stored into the shared session (`c.token = response.Token`). -/
def AuthWithPassword (net : Net) (adec : String → Option String)
    (dec : String → Option AuthWithPasswordResponse) (c : Collection) (s : Session)
    (username password : String) : OpResult AuthWithPasswordResponse :=
  match authorize net adec s with
  | (Except.error e, s1, tr) => ⟨Except.error e, s1, tr⟩
  | (Except.ok _, s1, tr) =>
    let req := authWithPasswordReq c username password
    match net req with
    | TransportResult.fail m =>
      ⟨Except.error (PBError.transport "auth-with-password" m), s1, tr ++ [req]⟩
    | TransportResult.ok r =>
      if r.isError then
        ⟨Except.error (PBError.server "auth-with-password" r.statusCode r.body), s1, tr ++ [req]⟩
      else
        match dec r.body with
        | Option.none =>
          ⟨Except.error (PBError.decodeFail "auth-with-password" r.body), s1, tr ++ [req]⟩
        | Option.some response =>
          ⟨Except.ok response, { s1 with token := response.token }, tr ++ [req]⟩

/-- `Collection.AuthWithOAuth2Code` from src/unnamed/part_000: on success
the decoded token is stored into the shared session. -/
def AuthWithOAuth2Code (net : Net) (adec : String → Option String)
    (dec : String → Option AuthWithOauth2Response) (c : Collection) (s : Session)
    (provider code codeVerifier redirectURL : String) : OpResult AuthWithOauth2Response :=
  match authorize net adec s with
  | (Except.error e, s1, tr) => ⟨Except.error e, s1, tr⟩
  | (Except.ok _, s1, tr) =>
    let req := authWithOAuth2Req c provider code codeVerifier redirectURL
    match net req with
    | TransportResult.fail m =>
      ⟨Except.error (PBError.transport "auth-with-oauth2" m), s1, tr ++ [req]⟩
    | TransportResult.ok r =>
      if r.isError then
        ⟨Except.error (PBError.server "auth-with-oauth2" r.statusCode r.body), s1, tr ++ [req]⟩
      else
        match dec r.body with
        | Option.none =>
          ⟨Except.error (PBError.decodeFail "auth-with-oauth2" r.body), s1, tr ++ [req]⟩
        | Option.some response =>
          ⟨Except.ok response, { s1 with token := response.token }, tr ++ [req]⟩

/-- `Collection.AuthRefresh` from src/unnamed/part_000: sends the session's
current token; on success the decoded token is stored into the session. -/
def AuthRefresh (net : Net) (adec : String → Option String)
    (dec : String → Option AuthRefreshResponse) (c : Collection) (s : Session) :
    OpResult AuthRefreshResponse :=
  match authorize net adec s with
  | (Except.error e, s1, tr) => ⟨Except.error e, s1, tr⟩
  | (Except.ok _, s1, tr) =>
    let req := authRefreshReq c s1.token
    match net req with
    | TransportResult.fail m =>
      ⟨Except.error (PBError.transport "auth-refresh" m), s1, tr ++ [req]⟩
    | TransportResult.ok r =>
      if r.isError then
        ⟨Except.error (PBError.server "auth-refresh" r.statusCode r.body), s1, tr ++ [req]⟩
      else
        match dec r.body with
        | Option.none =>
          ⟨Except.error (PBError.decodeFail "auth-refresh" r.body), s1, tr ++ [req]⟩
        | Option.some response =>
          ⟨Except.ok response, { s1 with token := response.token }, tr ++ [req]⟩

/-- `Collection.RequestVerification` from src/unnamed/part_000. -/
def RequestVerification (net : Net) (adec : String → Option String)
    (c : Collection) (s : Session) (email : String) : OpResult Unit :=
  match authorize net adec s with
  | (Except.error e, s1, tr) => ⟨Except.error e, s1, tr⟩
  | (Except.ok _, s1, tr) =>
    let req := requestVerificationReq c email
    match net req with
    | TransportResult.fail m =>
      ⟨Except.error (PBError.transport "request-verification" m), s1, tr ++ [req]⟩
    | TransportResult.ok r =>
      if r.isError then
        ⟨Except.error (PBError.server "request-verification" r.statusCode r.body), s1, tr ++ [req]⟩
      else ⟨Except.ok (), s1, tr ++ [req]⟩

/-- `Collection.ConfirmVerification` from src/unnamed/part_000. -/
def ConfirmVerification (net : Net) (adec : String → Option String)
    (c : Collection) (s : Session) (verificationToken : String) : OpResult Unit :=
  match authorize net adec s with
  | (Except.error e, s1, tr) => ⟨Except.error e, s1, tr⟩
  | (Except.ok _, s1, tr) =>
    let req := confirmVerificationReq c verificationToken
    match net req with
    | TransportResult.fail m =>
      ⟨Except.error (PBError.transport "confirm-verification" m), s1, tr ++ [req]⟩
    | TransportResult.ok r =>
      if r.isError then
        ⟨Except.error (PBError.server "confirm-verification" r.statusCode r.body), s1, tr ++ [req]⟩
      else ⟨Except.ok (), s1, tr ++ [req]⟩

/-- `Collection.RequestPasswordReset` from src/unnamed/part_000. -/
def RequestPasswordReset (net : Net) (adec : String → Option String)
    (c : Collection) (s : Session) (email : String) : OpResult Unit :=
  match authorize net adec s with
  | (Except.error e, s1, tr) => ⟨Except.error e, s1, tr⟩
  | (Except.ok _, s1, tr) =>
    let req := requestPasswordResetReq c email
    match net req with
    | TransportResult.fail m =>
      ⟨Except.error (PBError.transport "request-password-reset" m), s1, tr ++ [req]⟩
    | TransportResult.ok r =>
      if r.isError then
        ⟨Except.error (PBError.server "request-password-reset" r.statusCode r.body), s1,
          tr ++ [req]⟩
      else ⟨Except.ok (), s1, tr ++ [req]⟩

/-- `Collection.ConfirmPasswordReset` from src/unnamed/part_000. -/
def ConfirmPasswordReset (net : Net) (adec : String → Option String)
    (c : Collection) (s : Session) (passwordResetToken password passwordConfirm : String) :
    OpResult Unit :=
  match authorize net adec s with
  | (Except.error e, s1, tr) => ⟨Except.error e, s1, tr⟩
  | (Except.ok _, s1, tr) =>
    let req := confirmPasswordResetReq c passwordResetToken password passwordConfirm
    match net req with
    | TransportResult.fail m =>
      ⟨Except.error (PBError.transport "confirm-password-reset" m), s1, tr ++ [req]⟩
    | TransportResult.ok r =>
      if r.isError then
        ⟨Except.error (PBError.server "confirm-password-reset" r.statusCode r.body), s1,
          tr ++ [req]⟩
      else ⟨Except.ok (), s1, tr ++ [req]⟩

/-- `Collection.RequestEmailChange` from src/unnamed/part_000 (sends the
session's current token with the request). -/
def RequestEmailChange (net : Net) (adec : String → Option String)
    (c : Collection) (s : Session) (newEmail : String) : OpResult Unit :=
  match authorize net adec s with
  | (Except.error e, s1, tr) => ⟨Except.error e, s1, tr⟩
  | (Except.ok _, s1, tr) =>
    let req := requestEmailChangeReq c newEmail s1.token
    match net req with
    | TransportResult.fail m =>
      ⟨Except.error (PBError.transport "request-email-change" m), s1, tr ++ [req]⟩
    | TransportResult.ok r =>
      if r.isError then
        ⟨Except.error (PBError.server "request-email-change" r.statusCode r.body), s1,
          tr ++ [req]⟩
      else ⟨Except.ok (), s1, tr ++ [req]⟩

/-- `Collection.ConfirmEmailChange` from src/unnamed/part_000 (sends the
session's current token with the request). -/
def ConfirmEmailChange (net : Net) (adec : String → Option String)
    (c : Collection) (s : Session) (emailChangeToken password : String) : OpResult Unit :=
  match authorize net adec s with
  | (Except.error e, s1, tr) => ⟨Except.error e, s1, tr⟩
  | (Except.ok _, s1, tr) =>
    let req := confirmEmailChangeReq c emailChangeToken password s1.token
    match net req with
    | TransportResult.fail m =>
      ⟨Except.error (PBError.transport "confirm-email-change" m), s1, tr ++ [req]⟩
    | TransportResult.ok r =>
      if r.isError then
        ⟨Except.error (PBError.server "confirm-email-change" r.statusCode r.body), s1,
          tr ++ [req]⟩
      else ⟨Except.ok (), s1, tr ++ [req]⟩

/-- `Collection.ListExternalAuths` from src/unnamed/part_000. -/
def ListExternalAuths (net : Net) (adec : String → Option String)
    (dec : String → Option (List ExternalAuthRequest)) (c : Collection) (s : Session)
    (recordID : String) : OpResult (List ExternalAuthRequest) :=
  match authorize net adec s with
  | (Except.error e, s1, tr) => ⟨Except.error e, s1, tr⟩
  | (Except.ok _, s1, tr) =>
    let req := listExternalAuthsReq c recordID
    match net req with
    | TransportResult.fail m =>
      ⟨Except.error (PBError.transport "list external-auths" m), s1, tr ++ [req]⟩
    | TransportResult.ok r =>
      if r.isError then
        ⟨Except.error (PBError.server "list external-auths" r.statusCode r.body), s1,
          tr ++ [req]⟩
      else
        match dec r.body with
        | Option.none =>
          ⟨Except.error (PBError.decodeFail "list external-auths" r.body), s1, tr ++ [req]⟩
        | Option.some response => ⟨Except.ok response, s1, tr ++ [req]⟩

/-- `Collection.UnlinkExternalAuth` from src/unnamed/part_000. -/
def UnlinkExternalAuth (net : Net) (adec : String → Option String)
    (c : Collection) (s : Session) (recordID provider : String) : OpResult Unit :=
  match authorize net adec s with
  | (Except.error e, s1, tr) => ⟨Except.error e, s1, tr⟩
  | (Except.ok _, s1, tr) =>
    let req := unlinkExternalAuthReq c recordID provider
    match net req with
    | TransportResult.fail m =>
      ⟨Except.error (PBError.transport "unlink-external-auth" m), s1, tr ++ [req]⟩
    | TransportResult.ok r =>
      if r.isError then
        ⟨Except.error (PBError.server "unlink-external-auth" r.statusCode r.body), s1,
          tr ++ [req]⟩
      else ⟨Except.ok (), s1, tr ++ [req]⟩

/-- `Collection.One` from collection.go, generic over the caller-supplied
record shape `α`. -/
def One {α : Type} (net : Net) (adec : String → Option String)
    (dec : String → Option α) (c : Collection) (s : Session) (id : String) : OpResult α :=
  match authorize net adec s with
  | (Except.error e, s1, tr) => ⟨Except.error e, s1, tr⟩
  | (Except.ok _, s1, tr) =>
    let req := oneReq s c id
    match net req with
    | TransportResult.fail m =>
      ⟨Except.error (PBError.transport "one" m), s1, tr ++ [req]⟩
    | TransportResult.ok r =>
      if r.isError then
        ⟨Except.error (PBError.server "one" r.statusCode r.body), s1, tr ++ [req]⟩
      else
        match dec r.body with
        | Option.none => ⟨Except.error (PBError.decodeFail "one" r.body), s1, tr ++ [req]⟩
        | Option.some response => ⟨Except.ok response, s1, tr ++ [req]⟩

/-! ### Backup sub-client (backup.go) -/

/-- Request built by `Backup.Delete` (key used verbatim, no
`url.Parse`/`String` round-trip in the source). -/
def deleteBackupReq (s : Session) (key : String) : Request :=
  { method := "DELETE", url := s.url ++ "/api/backups/" ++ key,
    form := [], authToken := Option.none }

/-- The string `Backup.Restore` hands to `url.Parse`: the key is
lower-cased before the URL is built. -/
def restoreURLInput (s : Session) (key : String) : String :=
  s.url ++ "/api/backups/" ++ goToLower key ++ "/restore"

/-- Request built by `Backup.Restore`: its URL is `u.String()`, the
`url.Parse`/`URL.String` round-trip of `restoreURLInput`. -/
def restoreBackupReq (u : String) : Request :=
  { method := "POST", url := u, form := [], authToken := Option.none }

/-- The string `Backup.GetDownloadURL` hands to `url.Parse`: the source
builds `b.url + "/api/backups/" + key + "?" + params.Encode()` where the
only parameter is `token`, so `params.Encode()` is
`"token=" + url.QueryEscape(token)`. -/
def downloadURLInput (s : Session) (token key : String) : String :=
  s.url ++ "/api/backups/" ++ key ++ "?token=" ++ queryEscape token

/-- `Backup.Delete` from backup.go: DELETE `/api/backups/{key}` with the
key used verbatim. -/
def Backup.Delete (net : Net) (adec : String → Option String) (s : Session)
    (key : String) : OpResult Unit :=
  match authorize net adec s with
  | (Except.error e, s1, tr) => ⟨Except.error e, s1, tr⟩
  | (Except.ok _, s1, tr) =>
    let req := deleteBackupReq s key
    match net req with
    | TransportResult.fail m =>
      ⟨Except.error (PBError.transport "delete backup" m), s1, tr ++ [req]⟩
    | TransportResult.ok r =>
      if r.isError then
        ⟨Except.error (PBError.server "delete backup" r.statusCode r.body), s1, tr ++ [req]⟩
      else ⟨Except.ok (), s1, tr ++ [req]⟩

/-- `Backup.Restore` from backup.go: builds
`b.url + "/api/backups/" + strings.ToLower(key) + "/restore"` (the only
backup endpoint that lower-cases its key), passes it through
`url.Parse`; on parse failure returns the wrapped error and issues no
request; otherwise POSTs to `u.String()`.  The `url.Parse`/`URL.String`
round-trip is the oracle `urlp`: `Except.ok u` is the re-encoded
`u.String()` (the input itself when nothing needs re-encoding),
`Except.error` a parse failure (invalid percent escape, control byte). -/
def Backup.Restore (net : Net) (adec : String → Option String)
    (urlp : String → Except String String) (s : Session) (key : String) : OpResult Unit :=
  match authorize net adec s with
  | (Except.error e, s1, tr) => ⟨Except.error e, s1, tr⟩
  | (Except.ok _, s1, tr) =>
    match urlp (restoreURLInput s key) with
    | Except.error m => ⟨Except.error (PBError.invalidArgument m), s1, tr⟩
    | Except.ok u =>
      let req := restoreBackupReq u
      match net req with
      | TransportResult.fail m =>
        ⟨Except.error (PBError.transport "restore backup" m), s1, tr ++ [req]⟩
      | TransportResult.ok r =>
        if r.isError then
          ⟨Except.error (PBError.server "restore backup" r.statusCode r.body), s1, tr ++ [req]⟩
        else ⟨Except.ok (), s1, tr ++ [req]⟩

/-- `Backup.GetDownloadURL` from backup.go.  The source first rejects a
blank (`strings.TrimSpace`-empty) token or key, then calls the authorizer
gate, then passes `downloadURLInput` through `url.Parse`/`String` — the
oracle `urlp`, as in `Backup.Restore` — and returns `u.String()` (or the
parse error) without issuing any request itself. -/
def Backup.GetDownloadURL (net : Net) (adec : String → Option String)
    (urlp : String → Except String String) (s : Session)
    (token key : String) : OpResult String :=
  if goTrimSpace token = "" ∨ goTrimSpace key = "" then
    ⟨Except.error (PBError.invalidArgument "missing token and/or key"), s, []⟩
  else
    match authorize net adec s with
    | (Except.error e, s1, tr) => ⟨Except.error e, s1, tr⟩
    | (Except.ok _, s1, tr) =>
      match urlp (downloadURLInput s token key) with
      | Except.error m => ⟨Except.error (PBError.invalidArgument m), s1, tr⟩
      | Except.ok u => ⟨Except.ok u, s1, tr⟩

/-- `getZIPName` from backup.go: lower-case the name, then append ".zip"
only when the lower-cased name does not already *contain* ".zip". -/
def getZIPName (backupName : String) : String :=
  let zipName := goToLower backupName
  if !(goContains zipName ".zip") then zipName ++ ".zip" else zipName

/-- The zip-name normalisation as the claim words it, for refinement
comparison (written from the spec sentence, not from the source): ".zip"
is appended exactly when the lower-cased name does not already *end in*
".zip". -/
def zipNameSpec (backupName : String) : String :=
  if goEndsWith (goToLower backupName) ".zip" then goToLower backupName
  else goToLower backupName ++ ".zip"

/-! ### Paged FullList (spec-modelled: `Client.FullList` is not under src/) -/

/-- Modelled from the spec: `Client.FullList`, which `Collection.FullList`
in collection.go delegates to, lives in `client.go` and is not under
`src/`.  Spec §4.2: "FullList must issue repeated paged requests and
concatenate items in server-returned order, stopping when a page returns
fewer items than requested or when cumulative count reaches the
server-reported total".  `fetch page` returns the page's items and the
server-reported total; `fuel` bounds the number of page requests, standing
in for the loop's data-driven termination. -/
def FullList.loop {α : Type} (fetch : Nat → List α × Nat) (perPage : Nat) :
    Nat → Nat → List α → List α
  | 0, _, acc => acc
  | fuel+1, page, acc =>
    let pr := fetch page
    let acc1 := acc ++ pr.1
    if pr.1.length < perPage ∨ pr.2 ≤ acc1.length then acc1
    else FullList.loop fetch perPage fuel (page + 1) acc1

/-- Modelled from the spec: the paged aggregation starts at page 1 with no
items accumulated. -/
def FullList {α : Type} (fetch : Nat → List α × Nat) (perPage fuel : Nat) : List α :=
  FullList.loop fetch perPage fuel 1 []

/-- A well-behaved paging server over a fixed item list: page `n` (1-based)
returns the `n`-th slice of `perPage` items in order, and reports the list
length as the total item count. -/
def pagedServer {α : Type} (items : List α) (perPage : Nat) (page : Nat) :
    List α × Nat :=
  ((items.drop ((page - 1) * perPage)).take perPage, items.length)

/-! ### Concrete fixtures used by witnesses and counterexamples -/

/-- A session that already caches a token. -/
def sessCached : Session := ⟨"http://host", "cached", CredSource.adminEmailPassword "a@b.c" "pw"⟩

/-- A session with no credentials (anonymous). -/
def sessAnon : Session := ⟨"http://host", "", CredSource.none⟩

/-- A session with admin credentials and no cached token yet. -/
def sessAdmin : Session := ⟨"http://host", "", CredSource.adminEmailPassword "a@b.c" "pw"⟩

/-- The collection accessor the fixtures use. -/
def collUsers : Collection := CollectionSet sessAdmin "users"

/-- A network where the admin login succeeds and every other request is
rejected with status 400. -/
def netLoginOnly : Net := fun req =>
  if req.url = "http://host/api/admins/auth-with-password" then
    TransportResult.ok ⟨200, "login-body"⟩
  else TransportResult.ok ⟨400, "bad request"⟩

/-- Login-response decoder for the fixtures. -/
def adecDemo : String → Option String :=
  fun b => if b = "login-body" then Option.some "ADMIN" else Option.none

/-- A network answering every request with status 200 and body "ok-body". -/
def netOK : Net := fun _ => TransportResult.ok ⟨200, "ok-body"⟩

/-- A network failing at transport level. -/
def netDown : Net := fun _ => TransportResult.fail "connection refused"

/-- A network answering every request with status 404. -/
def net404 : Net := fun _ => TransportResult.ok ⟨404, "not found"⟩

/-- A network answering every request with status 300 (not 2xx, but not an
error for go-resty's `IsError`). -/
def net300 : Net := fun _ => TransportResult.ok ⟨300, "multiple choices"⟩

/-- An auth record with empty fields, for fixture responses. -/
def recDemo : Record := ⟨"", "", "", "", "", false, "", "", "", "", false⟩

/-- Fixture decoder for `AuthWithPassword` responses. -/
def decPwDemo : String → Option AuthWithPasswordResponse :=
  fun b => if b = "ok-body" then Option.some ⟨recDemo, "TOK"⟩ else Option.none

/-- Fixture decoder for `AuthWithOAuth2Code` responses. -/
def decOauthDemo : String → Option AuthWithOauth2Response :=
  fun b => if b = "ok-body" then Option.some ⟨"TOK2"⟩ else Option.none

/-- Fixture decoder for `AuthRefresh` responses. -/
def decRefreshDemo : String → Option AuthRefreshResponse :=
  fun b => if b = "ok-body" then Option.some ⟨recDemo, "TOK3"⟩ else Option.none

/-- A decoder that always fails. -/
def decNone {α : Type} : String → Option α := fun _ => Option.none

/-- The `url.Parse`/`URL.String` round-trip restricted to URLs it leaves
unchanged (no byte needing re-encoding, no invalid escape) — Go's actual
behaviour on every URL the fixtures use. -/
def urlpId : String → Except String String := fun u => Except.ok u

/-- A parse oracle rejecting every URL, exercising the parse-failure
branch of `Backup.Restore` and `Backup.GetDownloadURL`. -/
def urlpFail : String → Except String String := fun _ => Except.error "invalid URL escape"

/-! ### Proof scaffolding: the shared gate-then-one-request shape -/

/-- The shape every collection/backup operation shares: run the gate;
on gate failure return its error with the gate's session and trace; on
gate success issue `req` once, classify a transport failure, an error
status, a decode failure, and on success update the session with `upd`.
Used only to organise the proofs: each operation is proved equal to its
instance of this shape. -/
def gateStep {α : Type} (g : Except PBError Unit × Session × List Request)
    (net : Net) (req : Request) (opName : String) (dec : String → Option α)
    (upd : Session → α → Session) : OpResult α :=
  match g with
  | (Except.error e, s1, tr) => ⟨Except.error e, s1, tr⟩
  | (Except.ok _, s1, tr) =>
    match net req with
    | TransportResult.fail m => ⟨Except.error (PBError.transport opName m), s1, tr ++ [req]⟩
    | TransportResult.ok r =>
      if r.isError then
        ⟨Except.error (PBError.server opName r.statusCode r.body), s1, tr ++ [req]⟩
      else
        match dec r.body with
        | Option.none => ⟨Except.error (PBError.decodeFail opName r.body), s1, tr ++ [req]⟩
        | Option.some resp => ⟨Except.ok resp, upd s1 resp, tr ++ [req]⟩

/-- The contract claim C3 states for one operation `op` built over session
`s`: a gate error is returned as-is with no request issued beyond the
gate's own, and on gate success exactly one request `req` is issued, a
response with error status becoming an error carrying the response's
status code and body. -/
def GateOneRequest {α : Type} (net : Net) (adec : String → Option String) (s : Session)
    (opName : String) (req : Request) (op : OpResult α) : Prop :=
  (∀ e, (authorize net adec s).1 = Except.error e →
      op.res = Except.error e ∧ op.sess = (authorize net adec s).2.1 ∧
      op.trace = (authorize net adec s).2.2) ∧
  ((authorize net adec s).1 = Except.ok () →
      op.trace = (authorize net adec s).2.2 ++ [req] ∧
      ∀ r, net req = TransportResult.ok r → r.isError = true →
        op.res = Except.error (PBError.server opName r.statusCode r.body))

/-! ### Helper lemmas about the Go string primitives -/

/-- `(Char.ofNat n).toNat = n` for scalar values below the surrogate range. -/
theorem toNat_ofNat_valid (n : Nat) (h : n < 55296) : (Char.ofNat n).toNat = n := by
  have hv : n.isValidChar := Or.inl h
  rw [Char.ofNat, dif_pos hv]
  simp [Char.ofNatAux, Char.toNat, UInt32.toNat, BitVec.ofNatLt]

/-- Character order agrees with the order of the underlying scalar values. -/
theorem char_le_iff (a b : Char) : a ≤ b ↔ a.toNat ≤ b.toNat := by
  rw [Char.le_def, UInt32.le_def, BitVec.le_def]
  rfl

/-- Lower-casing an uppercase ASCII letter changes it. -/
theorem goLowerChar_ne (c : Char) (h1 : 'A' ≤ c) (h2 : c ≤ 'Z') : goLowerChar c ≠ c := by
  have ha : 65 ≤ c.toNat := (char_le_iff _ _).1 h1
  have hb : c.toNat ≤ 90 := (char_le_iff _ _).1 h2
  simp only [goLowerChar, if_pos (And.intro h1 h2)]
  intro hc
  have := congrArg Char.toNat hc
  rw [toNat_ofNat_valid (c.toNat + 32) (by omega)] at this
  omega

/-- Character lower-casing is idempotent. -/
theorem goLowerChar_idem (c : Char) : goLowerChar (goLowerChar c) = goLowerChar c := by
  by_cases h : 'A' ≤ c ∧ c ≤ 'Z'
  · have ha : 65 ≤ c.toNat := (char_le_iff _ _).1 h.1
    have hb : c.toNat ≤ 90 := (char_le_iff _ _).1 h.2
    simp only [goLowerChar, if_pos h]
    rw [if_neg]
    intro hz
    have h90 : ('Z' : Char).toNat = 90 := by decide
    have := (char_le_iff _ _).1 hz.2
    rw [toNat_ofNat_valid (c.toNat + 32) (by omega), h90] at this
    omega
  · simp only [goLowerChar, if_neg h]

/-- Mapping `goLowerChar` twice is the same as mapping it once. -/
theorem map_goLowerChar_idem (l : List Char) :
    (l.map goLowerChar).map goLowerChar = l.map goLowerChar := by
  induction l with
  | nil => rfl
  | cons c t ih => simp [goLowerChar_idem c, ih]

/-- String lower-casing is idempotent. -/
theorem goToLower_idem (s : String) : goToLower (goToLower s) = goToLower s :=
  congrArg String.mk (map_goLowerChar_idem s.data)

/-- String lower-casing distributes over append. -/
theorem goToLower_append (a b : String) : goToLower (a ++ b) = goToLower a ++ goToLower b := by
  apply String.ext
  simp [goToLower, String.data_append]

/-- If mapping a function over a list returns it unchanged, the function
fixes every member. -/
theorem map_eq_self_fixes {f : Char → Char} :
    ∀ l : List Char, l.map f = l → ∀ c ∈ l, f c = c := by
  intro l
  induction l with
  | nil => intro _ c hc; cases hc
  | cons a t ih =>
    intro h c hc
    rw [List.map_cons, List.cons_eq_cons] at h
    cases hc with
    | head => exact h.1
    | tail _ hm => exact ih h.2 c hm

/-- Lower-casing a string that holds an uppercase ASCII letter changes it. -/
theorem goToLower_ne_of_upper (s : String) (c : Char) (hc : c ∈ s.data)
    (h1 : 'A' ≤ c) (h2 : c ≤ 'Z') : goToLower s ≠ s := by
  intro he
  have hd : s.data.map goLowerChar = s.data := congrArg String.data he
  exact goLowerChar_ne c h1 h2 (map_eq_self_fixes s.data hd c hc)

/-- Every list is an initial segment of itself. -/
theorem leadsWith_refl (l : List Char) : leadsWith l l = true := by
  induction l with
  | nil => rfl
  | cons a t ih => simp [leadsWith, ih]

/-- A list occurs as a sublist at the end of any extension of itself. -/
theorem subListIn_append_self (n : List Char) :
    ∀ a : List Char, subListIn n (a ++ n) = true := by
  intro a
  induction a with
  | nil =>
    cases n with
    | nil => rfl
    | cons h t => simpa [subListIn] using Or.inl (leadsWith_refl (h :: t))
  | cons x xs ih => simpa [subListIn] using Or.inr ih

/-- A string contains any string it ends in. -/
theorem goContains_append (s pat : String) : goContains (s ++ pat) pat = true := by
  show subListIn pat.data (s ++ pat).data = true
  rw [String.data_append]
  exact subListIn_append_self pat.data s.data

/-! ### Lemmas about the shared gate-then-one-request shape -/

/-- A gate error is passed through untouched. -/
theorem gateStep_gate_error {α : Type} (g : Except PBError Unit × Session × List Request)
    (net : Net) (req : Request) (opName : String) (dec : String → Option α)
    (upd : Session → α → Session) (e : PBError) (h : g.1 = Except.error e) :
    gateStep g net req opName dec upd = ⟨Except.error e, g.2.1, g.2.2⟩ := by
  rcases g with ⟨a, s1, tr⟩
  obtain rfl : a = Except.error e := h
  rfl

/-- On gate success exactly the one request `req` is appended to the trace. -/
theorem gateStep_trace {α : Type} (g : Except PBError Unit × Session × List Request)
    (net : Net) (req : Request) (opName : String) (dec : String → Option α)
    (upd : Session → α → Session) (h : g.1 = Except.ok ()) :
    (gateStep g net req opName dec upd).trace = g.2.2 ++ [req] := by
  rcases g with ⟨a, s1, tr⟩
  obtain rfl : a = Except.ok () := h
  cases hr : net req with
  | fail m => simp [gateStep, hr]
  | ok r =>
    by_cases hie : r.isError
    · simp [gateStep, hr, hie]
    · cases hd : dec r.body <;> simp [gateStep, hr, hie, hd]

/-- On gate success, an error-status response becomes a `server` error
carrying the response's status code and body. -/
theorem gateStep_server {α : Type} (g : Except PBError Unit × Session × List Request)
    (net : Net) (req : Request) (opName : String) (dec : String → Option α)
    (upd : Session → α → Session) (r : HTTPResponse) (h : g.1 = Except.ok ())
    (hr : net req = TransportResult.ok r) (hie : r.isError = true) :
    (gateStep g net req opName dec upd).res
        = Except.error (PBError.server opName r.statusCode r.body) := by
  rcases g with ⟨a, s1, tr⟩
  obtain rfl : a = Except.ok () := h
  simp [gateStep, hr, hie]

/-- On gate success, a transport failure becomes a `transport` error. -/
theorem gateStep_transport {α : Type} (g : Except PBError Unit × Session × List Request)
    (net : Net) (req : Request) (opName : String) (dec : String → Option α)
    (upd : Session → α → Session) (m : String) (h : g.1 = Except.ok ())
    (hr : net req = TransportResult.fail m) :
    (gateStep g net req opName dec upd).res = Except.error (PBError.transport opName m) := by
  rcases g with ⟨a, s1, tr⟩
  obtain rfl : a = Except.ok () := h
  simp [gateStep, hr]

/-- On gate success, a non-error response whose body does not decode
becomes a `decodeFail` error. -/
theorem gateStep_decode {α : Type} (g : Except PBError Unit × Session × List Request)
    (net : Net) (req : Request) (opName : String) (dec : String → Option α)
    (upd : Session → α → Session) (r : HTTPResponse) (h : g.1 = Except.ok ())
    (hr : net req = TransportResult.ok r) (hie : r.isError = false)
    (hd : dec r.body = Option.none) :
    (gateStep g net req opName dec upd).res = Except.error (PBError.decodeFail opName r.body) := by
  rcases g with ⟨a, s1, tr⟩
  obtain rfl : a = Except.ok () := h
  simp [gateStep, hr, hie, hd]

/-- A successful operation leaves the session `upd` produces from the
gate's session and the decoded response. -/
theorem gateStep_ok_sess {α : Type} (g : Except PBError Unit × Session × List Request)
    (net : Net) (req : Request) (opName : String) (dec : String → Option α)
    (upd : Session → α → Session) (resp : α)
    (h : (gateStep g net req opName dec upd).res = Except.ok resp) :
    (gateStep g net req opName dec upd).sess = upd g.2.1 resp := by
  rcases g with ⟨a, s1, tr⟩
  cases a with
  | error e => simp [gateStep] at h
  | ok u =>
    cases hr : net req with
    | fail m => simp [gateStep, hr] at h
    | ok r =>
      by_cases hie : r.isError
      · simp [gateStep, hr, hie] at h
      · cases hd : dec r.body with
        | none => simp [gateStep, hr, hie, hd] at h
        | some resp0 =>
          simp [gateStep, hr, hie, hd] at h ⊢
          rw [h]

/-- A failed operation leaves exactly the session the gate left. -/
theorem gateStep_error_sess {α : Type} (g : Except PBError Unit × Session × List Request)
    (net : Net) (req : Request) (opName : String) (dec : String → Option α)
    (upd : Session → α → Session) (e : PBError)
    (h : (gateStep g net req opName dec upd).res = Except.error e) :
    (gateStep g net req opName dec upd).sess = g.2.1 := by
  rcases g with ⟨a, s1, tr⟩
  cases a with
  | error e2 => rfl
  | ok u =>
    cases hr : net req with
    | fail m => simp [gateStep, hr]
    | ok r =>
      by_cases hie : r.isError
      · simp [gateStep, hr, hie]
      · cases hd : dec r.body with
        | none => simp [gateStep, hr, hie, hd]
        | some resp0 => simp [gateStep, hr, hie, hd] at h

/-- The C3 contract holds for any instance of the shared shape. -/
theorem gateStep_gateOneRequest {α : Type} (net : Net) (adec : String → Option String)
    (s : Session) (opName : String) (req : Request) (dec : String → Option α)
    (upd : Session → α → Session) :
    GateOneRequest net adec s opName req
      (gateStep (authorize net adec s) net req opName dec upd) := by
  constructor
  · intro e he
    rw [gateStep_gate_error (authorize net adec s) net req opName dec upd e he]
    exact ⟨rfl, rfl, rfl⟩
  · intro hok
    refine ⟨gateStep_trace (authorize net adec s) net req opName dec upd hok, ?_⟩
    intro r hr hie
    exact gateStep_server (authorize net adec s) net req opName dec upd r hok hr hie

/-! ### Each operation is an instance of the shared shape -/

/-- `ListAuthMethods` as a `gateStep` instance. -/
theorem ListAuthMethods_eq (net : Net) (adec : String → Option String)
    (dec : String → Option AuthMethod) (c : Collection) (s : Session) :
    ListAuthMethods net adec dec c s
      = gateStep (authorize net adec s) net (listAuthMethodsReq c) "ListAuthMethods" dec
          (fun s1 _ => s1) := by
  unfold ListAuthMethods gateStep
  rcases authorize net adec s with ⟨a, s1, tr⟩
  cases a with
  | error e => rfl
  | ok u =>
    dsimp only
    cases net (listAuthMethodsReq c) with
    | fail m => rfl
    | ok r =>
      by_cases hie : r.isError
      · simp [hie]
      · cases hd : dec r.body <;> simp [hie, hd]

/-- `AuthWithPassword` as a `gateStep` instance: its session update stores
the decoded token. -/
theorem AuthWithPassword_eq (net : Net) (adec : String → Option String)
    (dec : String → Option AuthWithPasswordResponse) (c : Collection) (s : Session)
    (username password : String) :
    AuthWithPassword net adec dec c s username password
      = gateStep (authorize net adec s) net (authWithPasswordReq c username password)
          "auth-with-password" dec (fun s1 resp => { s1 with token := resp.token }) := by
  unfold AuthWithPassword gateStep
  rcases authorize net adec s with ⟨a, s1, tr⟩
  cases a with
  | error e => rfl
  | ok u =>
    dsimp only
    cases net (authWithPasswordReq c username password) with
    | fail m => rfl
    | ok r =>
      by_cases hie : r.isError
      · simp [hie]
      · cases hd : dec r.body <;> simp [hie, hd]

/-- `AuthWithOAuth2Code` as a `gateStep` instance: its session update
stores the decoded token. -/
theorem AuthWithOAuth2Code_eq (net : Net) (adec : String → Option String)
    (dec : String → Option AuthWithOauth2Response) (c : Collection) (s : Session)
    (provider code codeVerifier redirectURL : String) :
    AuthWithOAuth2Code net adec dec c s provider code codeVerifier redirectURL
      = gateStep (authorize net adec s) net (authWithOAuth2Req c provider code codeVerifier redirectURL)
          "auth-with-oauth2" dec (fun s1 resp => { s1 with token := resp.token }) := by
  unfold AuthWithOAuth2Code gateStep
  rcases authorize net adec s with ⟨a, s1, tr⟩
  cases a with
  | error e => rfl
  | ok u =>
    dsimp only
    cases net (authWithOAuth2Req c provider code codeVerifier redirectURL) with
    | fail m => rfl
    | ok r =>
      by_cases hie : r.isError
      · simp [hie]
      · cases hd : dec r.body <;> simp [hie, hd]

/-- `AuthRefresh` as a `gateStep` instance: the request carries the token
the gate left, and the session update stores the decoded token. -/
theorem AuthRefresh_eq (net : Net) (adec : String → Option String)
    (dec : String → Option AuthRefreshResponse) (c : Collection) (s : Session) :
    AuthRefresh net adec dec c s
      = gateStep (authorize net adec s) net (authRefreshReq c (authorize net adec s).2.1.token)
          "auth-refresh" dec (fun s1 resp => { s1 with token := resp.token }) := by
  unfold AuthRefresh gateStep
  rcases authorize net adec s with ⟨a, s1, tr⟩
  cases a with
  | error e => rfl
  | ok u =>
    dsimp only
    cases net (authRefreshReq c s1.token) with
    | fail m => rfl
    | ok r =>
      by_cases hie : r.isError
      · simp [hie]
      · cases hd : dec r.body <;> simp [hie, hd]

/-- `RequestVerification` as a `gateStep` instance (no body decoding). -/
theorem RequestVerification_eq (net : Net) (adec : String → Option String)
    (c : Collection) (s : Session) (email : String) :
    RequestVerification net adec c s email
      = gateStep (authorize net adec s) net (requestVerificationReq c email)
          "request-verification" (fun _ => Option.some ()) (fun s1 _ => s1) := by
  unfold RequestVerification gateStep
  rcases authorize net adec s with ⟨a, s1, tr⟩
  cases a with
  | error e => rfl
  | ok u => dsimp only

/-- `ConfirmVerification` as a `gateStep` instance (no body decoding). -/
theorem ConfirmVerification_eq (net : Net) (adec : String → Option String)
    (c : Collection) (s : Session) (verificationToken : String) :
    ConfirmVerification net adec c s verificationToken
      = gateStep (authorize net adec s) net (confirmVerificationReq c verificationToken)
          "confirm-verification" (fun _ => Option.some ()) (fun s1 _ => s1) := by
  unfold ConfirmVerification gateStep
  rcases authorize net adec s with ⟨a, s1, tr⟩
  cases a with
  | error e => rfl
  | ok u => dsimp only

/-- `RequestPasswordReset` as a `gateStep` instance (no body decoding). -/
theorem RequestPasswordReset_eq (net : Net) (adec : String → Option String)
    (c : Collection) (s : Session) (email : String) :
    RequestPasswordReset net adec c s email
      = gateStep (authorize net adec s) net (requestPasswordResetReq c email)
          "request-password-reset" (fun _ => Option.some ()) (fun s1 _ => s1) := by
  unfold RequestPasswordReset gateStep
  rcases authorize net adec s with ⟨a, s1, tr⟩
  cases a with
  | error e => rfl
  | ok u => dsimp only

/-- `ConfirmPasswordReset` as a `gateStep` instance (no body decoding). -/
theorem ConfirmPasswordReset_eq (net : Net) (adec : String → Option String)
    (c : Collection) (s : Session) (tok password passwordConfirm : String) :
    ConfirmPasswordReset net adec c s tok password passwordConfirm
      = gateStep (authorize net adec s) net (confirmPasswordResetReq c tok password passwordConfirm)
          "confirm-password-reset" (fun _ => Option.some ()) (fun s1 _ => s1) := by
  unfold ConfirmPasswordReset gateStep
  rcases authorize net adec s with ⟨a, s1, tr⟩
  cases a with
  | error e => rfl
  | ok u => dsimp only

/-- `RequestEmailChange` as a `gateStep` instance: the request carries the
token the gate left. -/
theorem RequestEmailChange_eq (net : Net) (adec : String → Option String)
    (c : Collection) (s : Session) (newEmail : String) :
    RequestEmailChange net adec c s newEmail
      = gateStep (authorize net adec s) net
          (requestEmailChangeReq c newEmail (authorize net adec s).2.1.token)
          "request-email-change" (fun _ => Option.some ()) (fun s1 _ => s1) := by
  unfold RequestEmailChange gateStep
  rcases authorize net adec s with ⟨a, s1, tr⟩
  cases a with
  | error e => rfl
  | ok u => dsimp only

/-- `ConfirmEmailChange` as a `gateStep` instance: the request carries the
token the gate left. -/
theorem ConfirmEmailChange_eq (net : Net) (adec : String → Option String)
    (c : Collection) (s : Session) (emailChangeToken password : String) :
    ConfirmEmailChange net adec c s emailChangeToken password
      = gateStep (authorize net adec s) net
          (confirmEmailChangeReq c emailChangeToken password (authorize net adec s).2.1.token)
          "confirm-email-change" (fun _ => Option.some ()) (fun s1 _ => s1) := by
  unfold ConfirmEmailChange gateStep
  rcases authorize net adec s with ⟨a, s1, tr⟩
  cases a with
  | error e => rfl
  | ok u => dsimp only

/-- `ListExternalAuths` as a `gateStep` instance. -/
theorem ListExternalAuths_eq (net : Net) (adec : String → Option String)
    (dec : String → Option (List ExternalAuthRequest)) (c : Collection) (s : Session)
    (recordID : String) :
    ListExternalAuths net adec dec c s recordID
      = gateStep (authorize net adec s) net (listExternalAuthsReq c recordID)
          "list external-auths" dec (fun s1 _ => s1) := by
  unfold ListExternalAuths gateStep
  rcases authorize net adec s with ⟨a, s1, tr⟩
  cases a with
  | error e => rfl
  | ok u =>
    dsimp only
    cases net (listExternalAuthsReq c recordID) with
    | fail m => rfl
    | ok r =>
      by_cases hie : r.isError
      · simp [hie]
      · cases hd : dec r.body <;> simp [hie, hd]

/-- `UnlinkExternalAuth` as a `gateStep` instance (no body decoding). -/
theorem UnlinkExternalAuth_eq (net : Net) (adec : String → Option String)
    (c : Collection) (s : Session) (recordID provider : String) :
    UnlinkExternalAuth net adec c s recordID provider
      = gateStep (authorize net adec s) net (unlinkExternalAuthReq c recordID provider)
          "unlink-external-auth" (fun _ => Option.some ()) (fun s1 _ => s1) := by
  unfold UnlinkExternalAuth gateStep
  rcases authorize net adec s with ⟨a, s1, tr⟩
  cases a with
  | error e => rfl
  | ok u => dsimp only

/-- `One` as a `gateStep` instance. -/
theorem One_eq {α : Type} (net : Net) (adec : String → Option String)
    (dec : String → Option α) (c : Collection) (s : Session) (id : String) :
    One net adec dec c s id
      = gateStep (authorize net adec s) net (oneReq s c id) "one" dec (fun s1 _ => s1) := by
  unfold One gateStep
  rcases authorize net adec s with ⟨a, s1, tr⟩
  cases a with
  | error e => rfl
  | ok u => dsimp only

/-! ### Claims C7 and C8: the backup zip-name normalisation -/

/-- C7 counterexample: the claim says ".zip" is appended exactly when the
lower-cased name does not already *end in* ".zip", but `getZIPName` tests
`strings.Contains`: on "a.zipb" the code appends nothing while the claim
demands "a.zipb.zip". -/
theorem claim_c7_counterexample :
    getZIPName "a.zipb" ≠ zipNameSpec "a.zipb" ∧
    getZIPName "a.zipb" = "a.zipb" ∧ zipNameSpec "a.zipb" = "a.zipb.zip" :=
  ⟨by decide, by decide, by decide⟩

/-- C7 (amended): `getZIPName` lower-cases its argument and appends ".zip"
exactly when the lower-cased name does not already *contain* ".zip". -/
theorem claim_c7_zip_name (x : String) :
    (goContains (goToLower x) ".zip" = false → getZIPName x = goToLower x ++ ".zip") ∧
    (goContains (goToLower x) ".zip" = true → getZIPName x = goToLower x) := by
  constructor <;> intro h <;> simp [getZIPName, h]

/-- C7 witness: both branches of the amended claim at concrete names. -/
theorem claim_c7_zip_name_witness :
    getZIPName "Foo" = goToLower "Foo" ++ ".zip" ∧
    getZIPName "Bar.zip" = goToLower "Bar.zip" :=
  ⟨(claim_c7_zip_name "Foo").1 (by decide), (claim_c7_zip_name "Bar.zip").2 (by decide)⟩

/-- C8: `getZIPName` is idempotent, and on the spec's examples
`getZIPName "Foo" = "foo.zip"` and `getZIPName "Foo.zip" = "foo.zip"`. -/
theorem claim_c8_zip_name_idempotent (x : String) :
    getZIPName (getZIPName x) = getZIPName x ∧
    getZIPName "Foo" = "foo.zip" ∧ getZIPName "Foo.zip" = "foo.zip" := by
  refine ⟨?_, by decide, by decide⟩
  by_cases h : goContains (goToLower x) ".zip"
  · have hx : getZIPName x = goToLower x := by simp [getZIPName, h]
    rw [hx]
    simp [getZIPName, goToLower_idem, h]
  · have hx : getZIPName x = goToLower x ++ ".zip" := by
      simp [getZIPName, Bool.not_eq_true] at h ⊢
      simp [h]
    rw [hx]
    have hlow : goToLower (goToLower x ++ ".zip") = goToLower x ++ ".zip" := by
      rw [goToLower_append, goToLower_idem]
      have : goToLower ".zip" = ".zip" := by decide
      rw [this]
    simp [getZIPName, hlow, goContains_append]

/-! ### Claim C10: Restore lower-cases the backup key, Delete does not -/

/-- C10: `Backup.Restore` lower-cases its key: it hands
`endpoint + "/api/backups/" + toLower(key) + "/restore"` to the
`url.Parse`/`String` round-trip and, once the gate succeeds, POSTs to the
round-trip's result `u` — the handed string itself whenever the round-trip
is the identity (every key needing no re-encoding) — and issues no request
at all on a parse failure; `Backup.Delete` targets
`endpoint + "/api/backups/" + key` with the key verbatim; for a key
holding an uppercase ASCII letter the two address different backup keys. -/
theorem claim_c10_restore_lowercases (net : Net) (adec : String → Option String)
    (urlp : String → Except String String) (s : Session) (key : String) (u m : String) :
    ((authorize net adec s).1 = Except.ok () →
      (urlp (restoreURLInput s key) = Except.ok u →
        (Backup.Restore net adec urlp s key).trace
            = (authorize net adec s).2.2 ++ [restoreBackupReq u]) ∧
      (urlp (restoreURLInput s key) = Except.error m →
        (Backup.Restore net adec urlp s key).trace = (authorize net adec s).2.2 ∧
        (Backup.Restore net adec urlp s key).res
            = Except.error (PBError.invalidArgument m)) ∧
      (Backup.Delete net adec s key).trace
          = (authorize net adec s).2.2 ++ [deleteBackupReq s key]) ∧
    restoreURLInput s key = s.url ++ "/api/backups/" ++ goToLower key ++ "/restore" ∧
    (deleteBackupReq s key).url = s.url ++ "/api/backups/" ++ key ∧
    (∀ c ∈ key.data, 'A' ≤ c → c ≤ 'Z' → goToLower key ≠ key) := by
  refine ⟨?_, rfl, rfl, ?_⟩
  · intro h
    rcases hg : authorize net adec s with ⟨a, s1, tr⟩
    rw [hg] at h
    obtain rfl : a = Except.ok () := h
    refine ⟨?_, ?_, ?_⟩
    · intro hu
      simp only [Backup.Restore, hg, hu]
      cases hnet : net (restoreBackupReq u) with
      | ok r => by_cases hie : r.isError <;> simp [hie]
      | fail m2 => simp
    · intro hu
      simp [Backup.Restore, hg, hu]
    · simp only [Backup.Delete, hg]
      cases hnet : net (deleteBackupReq s key) with
      | ok r => by_cases hie : r.isError <;> simp [hie]
      | fail m2 => simp
  · intro c hc h1 h2
    exact goToLower_ne_of_upper key c hc h1 h2

/-- C10 witness: with a cached token the gate is silent; on a URL the
round-trip leaves unchanged, `Restore` issues exactly its
lower-cased-key request while `Delete` issues its verbatim-key request;
on a parse failure `Restore` issues nothing; and "Key.ZIP" is changed by
lower-casing. -/
theorem claim_c10_restore_lowercases_witness :
    (Backup.Restore netOK adecDemo urlpId sessCached "Key.ZIP").trace
        = [restoreBackupReq "http://host/api/backups/key.zip/restore"] ∧
    (Backup.Delete netOK adecDemo sessCached "Key.ZIP").trace
        = [deleteBackupReq sessCached "Key.ZIP"] ∧
    (Backup.Restore netOK adecDemo urlpFail sessCached "Key.ZIP").trace = [] ∧
    goToLower "Key.ZIP" ≠ "Key.ZIP" := by
  have h := claim_c10_restore_lowercases netOK adecDemo urlpId sessCached "Key.ZIP"
    "http://host/api/backups/key.zip/restore" "invalid URL escape"
  have hf := claim_c10_restore_lowercases netOK adecDemo urlpFail sessCached "Key.ZIP"
    "http://host/api/backups/key.zip/restore" "invalid URL escape"
  have h1 := h.1 rfl
  have hf1 := hf.1 rfl
  exact ⟨h1.1 rfl, h1.2.2, (hf1.2.1 rfl).1, h.2.2.2 'K' (by decide) (by decide) (by decide)⟩

/-! ### Claim C4: the authorizer gate is idempotent (spec-modelled) -/

/-- C4 (spec-modelled `authorize`): with a non-empty cached token the gate
returns success immediately, unchanged session, zero requests — so a
second call in a row also issues zero requests; with credential source
"none" it returns success without setting a token. -/
theorem claim_c4_authorize_idempotent (net : Net) (adec : String → Option String)
    (s : Session) :
    (s.token ≠ "" → authorize net adec s = (Except.ok (), s, [])) ∧
    (s.cred = CredSource.none → authorize net adec s = (Except.ok (), s, [])) ∧
    (s.token ≠ "" →
      authorize net adec (authorize net adec s).2.1 = (Except.ok (), s, [])) := by
  refine ⟨?_, ?_, ?_⟩
  · intro h
    simp [authorize, h]
  · intro h
    by_cases ht : s.token = ""
    · simp [authorize, ht, h]
    · simp [authorize, ht]
  · intro h
    have h1 : authorize net adec s = (Except.ok (), s, []) := by simp [authorize, h]
    rw [h1]
    simp [authorize, h]

/-- C4 witness: against a dead transport, a cached-token session and an
anonymous session both authorize successfully with zero requests, twice in
a row. -/
theorem claim_c4_authorize_idempotent_witness :
    authorize netDown adecDemo sessCached = (Except.ok (), sessCached, []) ∧
    authorize netDown adecDemo sessAnon = (Except.ok (), sessAnon, []) ∧
    authorize netDown adecDemo (authorize netDown adecDemo sessCached).2.1
        = (Except.ok (), sessCached, []) := by
  have h := claim_c4_authorize_idempotent netDown adecDemo sessCached
  have h2 := claim_c4_authorize_idempotent netDown adecDemo sessAnon
  exact ⟨h.1 (by decide), h2.2.1 rfl, h.2.2 (by decide)⟩

/-! ### Claim C1: successful auth calls overwrite the shared token -/

/-- C1: whenever `AuthWithPassword`, `AuthWithOAuth2Code` or `AuthRefresh`
returns success, the shared session's token equals the token of the decoded
response — unconditionally, for every prior session state (no expiry
comparison), and the returned session is the state every accessor sharing
it sees. -/
theorem claim_c1_success_overwrites_token (net : Net) (adec : String → Option String)
    (decP : String → Option AuthWithPasswordResponse)
    (decO : String → Option AuthWithOauth2Response)
    (decR : String → Option AuthRefreshResponse)
    (c : Collection) (s : Session)
    (username password provider code codeVerifier redirectURL : String)
    (r1 : AuthWithPasswordResponse) (r2 : AuthWithOauth2Response)
    (r3 : AuthRefreshResponse) :
    ((AuthWithPassword net adec decP c s username password).res = Except.ok r1 →
      (AuthWithPassword net adec decP c s username password).sess.token = r1.token) ∧
    ((AuthWithOAuth2Code net adec decO c s provider code codeVerifier redirectURL).res
          = Except.ok r2 →
      (AuthWithOAuth2Code net adec decO c s provider code codeVerifier redirectURL).sess.token
          = r2.token) ∧
    ((AuthRefresh net adec decR c s).res = Except.ok r3 →
      (AuthRefresh net adec decR c s).sess.token = r3.token) := by
  refine ⟨?_, ?_, ?_⟩
  · rw [AuthWithPassword_eq]
    intro h
    rw [gateStep_ok_sess _ _ _ _ _ _ r1 h]
  · rw [AuthWithOAuth2Code_eq]
    intro h
    rw [gateStep_ok_sess _ _ _ _ _ _ r2 h]
  · rw [AuthRefresh_eq]
    intro h
    rw [gateStep_ok_sess _ _ _ _ _ _ r3 h]

/-- C1 witness: a session with a previously cached token "cached" ends
holding exactly the token of each successful response. -/
theorem claim_c1_success_overwrites_token_witness :
    (AuthWithPassword netOK adecDemo decPwDemo collUsers sessCached "u" "p").sess.token
        = "TOK" ∧
    (AuthWithOAuth2Code netOK adecDemo decOauthDemo collUsers sessCached "g" "c" "v" "r").sess.token
        = "TOK2" ∧
    (AuthRefresh netOK adecDemo decRefreshDemo collUsers sessCached).sess.token = "TOK3" := by
  have h := claim_c1_success_overwrites_token netOK adecDemo decPwDemo decOauthDemo decRefreshDemo
    collUsers sessCached "u" "p" "g" "c" "v" "r" ⟨recDemo, "TOK"⟩ ⟨"TOK2"⟩ ⟨recDemo, "TOK3"⟩
  exact ⟨h.1 rfl, h.2.1 rfl, h.2.2 rfl⟩

/-! ### Claim C2: failed calls and the session token -/

/-- The authorizer gate never mutates the session on its own failure. -/
theorem authorize_error_sess (net : Net) (adec : String → Option String) (s : Session)
    (e : PBError) (h : (authorize net adec s).1 = Except.error e) :
    (authorize net adec s).2.1 = s := by
  by_cases ht : s.token = ""
  · cases hc : s.cred with
    | none => simp [authorize, ht, hc] at h
    | adminEmailPassword em pw =>
      simp only [authorize, ht, hc] at h ⊢
      cases hr : net (adminAuthReq s em pw) with
      | fail m => simp [hr]
      | ok r =>
        by_cases hie : r.isError
        · simp [hr, hie]
        · cases hd : adec r.body with
          | none => simp [hr, hie, hd]
          | some t => simp [hr, hie, hd] at h
  · simp [authorize, ht]

/-- C2 counterexample: with admin credentials and no cached token, a
`AuthWithPassword` call whose login exchange succeeds but whose own request
is rejected returns an error, yet the session token is no longer what it
was before the call (the gate stored the admin token). -/
theorem claim_c2_counterexample :
    (AuthWithPassword netLoginOnly adecDemo decPwDemo collUsers sessAdmin "u" "p").res
        = Except.error (PBError.server "auth-with-password" 400 "bad request") ∧
    (AuthWithPassword netLoginOnly adecDemo decPwDemo collUsers sessAdmin "u" "p").sess.token
        = "ADMIN" ∧
    sessAdmin.token = "" :=
  ⟨rfl, rfl, rfl⟩

/-- C2 (amended): a failed authenticating call never itself mutates the
token: on error the session is exactly what the authorizer gate left, and
the gate leaves the session untouched on its own failure; in particular,
when a token is already cached (so the gate is a no-op) a failed call
leaves the token exactly as it was before the call. -/
theorem claim_c2_error_leaves_gate_session (net : Net) (adec : String → Option String)
    (decP : String → Option AuthWithPasswordResponse)
    (decO : String → Option AuthWithOauth2Response)
    (decR : String → Option AuthRefreshResponse)
    (c : Collection) (s : Session)
    (username password provider code codeVerifier redirectURL : String) (e : PBError) :
    ((authorize net adec s).1 = Except.error e → (authorize net adec s).2.1 = s) ∧
    ((AuthWithPassword net adec decP c s username password).res = Except.error e →
      (AuthWithPassword net adec decP c s username password).sess
          = (authorize net adec s).2.1) ∧
    ((AuthWithOAuth2Code net adec decO c s provider code codeVerifier redirectURL).res
          = Except.error e →
      (AuthWithOAuth2Code net adec decO c s provider code codeVerifier redirectURL).sess
          = (authorize net adec s).2.1) ∧
    ((AuthRefresh net adec decR c s).res = Except.error e →
      (AuthRefresh net adec decR c s).sess = (authorize net adec s).2.1) ∧
    (s.token ≠ "" →
      (AuthWithPassword net adec decP c s username password).res = Except.error e →
      (AuthWithPassword net adec decP c s username password).sess.token = s.token) := by
  refine ⟨authorize_error_sess net adec s e, ?_, ?_, ?_, ?_⟩
  · rw [AuthWithPassword_eq]
    intro h
    exact gateStep_error_sess _ _ _ _ _ _ e h
  · rw [AuthWithOAuth2Code_eq]
    intro h
    exact gateStep_error_sess _ _ _ _ _ _ e h
  · rw [AuthRefresh_eq]
    intro h
    exact gateStep_error_sess _ _ _ _ _ _ e h
  · intro ht h
    rw [AuthWithPassword_eq] at h ⊢
    rw [gateStep_error_sess _ _ _ _ _ _ e h]
    have hg : authorize net adec s = (Except.ok (), s, []) := by simp [authorize, ht]
    rw [hg]

/-- C2 witness: a gate failure leaves the session untouched, and with a
cached token a rejected call leaves the token exactly as before. -/
theorem claim_c2_error_leaves_gate_session_witness :
    (authorize netDown adecDemo sessAdmin).2.1 = sessAdmin ∧
    (AuthWithPassword net404 adecDemo decPwDemo collUsers sessCached "u" "p").sess.token
        = sessCached.token := by
  constructor
  · exact (claim_c2_error_leaves_gate_session netDown adecDemo decPwDemo decOauthDemo
      decRefreshDemo collUsers sessAdmin "u" "p" "g" "c" "v" "r"
      (PBError.transport "authorize" "connection refused")).1 rfl
  · exact (claim_c2_error_leaves_gate_session net404 adecDemo decPwDemo decOauthDemo
      decRefreshDemo collUsers sessCached "u" "p" "g" "c" "v" "r"
      (PBError.server "auth-with-password" 404 "not found")).2.2.2.2 (by decide) rfl

/-! ### Claim C3: gate first, then exactly one request, errors carried -/

/-- C3: every auth-flow operation of the collection accessor first runs the
authorizer gate; a gate error is returned as-is with no request of the
operation's own, and on gate success the operation issues exactly one HTTP
request, a response with error status becoming an error that carries the
response's original status code and body text. -/
theorem claim_c3_gate_then_one_request (net : Net) (adec : String → Option String)
    (decM : String → Option AuthMethod)
    (decP : String → Option AuthWithPasswordResponse)
    (decO : String → Option AuthWithOauth2Response)
    (decR : String → Option AuthRefreshResponse)
    (decE : String → Option (List ExternalAuthRequest))
    (c : Collection) (s : Session)
    (username password provider code codeVerifier redirectURL email verificationToken
      resetToken newPassword passwordConfirm newEmail emailChangeToken accountPassword
      recordID extProvider : String) :
    GateOneRequest net adec s "ListAuthMethods" (listAuthMethodsReq c)
        (ListAuthMethods net adec decM c s) ∧
    GateOneRequest net adec s "auth-with-password" (authWithPasswordReq c username password)
        (AuthWithPassword net adec decP c s username password) ∧
    GateOneRequest net adec s "auth-with-oauth2"
        (authWithOAuth2Req c provider code codeVerifier redirectURL)
        (AuthWithOAuth2Code net adec decO c s provider code codeVerifier redirectURL) ∧
    GateOneRequest net adec s "auth-refresh"
        (authRefreshReq c (authorize net adec s).2.1.token)
        (AuthRefresh net adec decR c s) ∧
    GateOneRequest net adec s "request-verification" (requestVerificationReq c email)
        (RequestVerification net adec c s email) ∧
    GateOneRequest net adec s "confirm-verification"
        (confirmVerificationReq c verificationToken)
        (ConfirmVerification net adec c s verificationToken) ∧
    GateOneRequest net adec s "request-password-reset" (requestPasswordResetReq c email)
        (RequestPasswordReset net adec c s email) ∧
    GateOneRequest net adec s "confirm-password-reset"
        (confirmPasswordResetReq c resetToken newPassword passwordConfirm)
        (ConfirmPasswordReset net adec c s resetToken newPassword passwordConfirm) ∧
    GateOneRequest net adec s "request-email-change"
        (requestEmailChangeReq c newEmail (authorize net adec s).2.1.token)
        (RequestEmailChange net adec c s newEmail) ∧
    GateOneRequest net adec s "confirm-email-change"
        (confirmEmailChangeReq c emailChangeToken accountPassword
          (authorize net adec s).2.1.token)
        (ConfirmEmailChange net adec c s emailChangeToken accountPassword) ∧
    GateOneRequest net adec s "list external-auths" (listExternalAuthsReq c recordID)
        (ListExternalAuths net adec decE c s recordID) ∧
    GateOneRequest net adec s "unlink-external-auth"
        (unlinkExternalAuthReq c recordID extProvider)
        (UnlinkExternalAuth net adec c s recordID extProvider) := by
  refine ⟨?_, ?_, ?_, ?_, ?_, ?_, ?_, ?_, ?_, ?_, ?_, ?_⟩
  · rw [ListAuthMethods_eq]
    exact gateStep_gateOneRequest _ _ _ _ _ _ _
  · rw [AuthWithPassword_eq]
    exact gateStep_gateOneRequest _ _ _ _ _ _ _
  · rw [AuthWithOAuth2Code_eq]
    exact gateStep_gateOneRequest _ _ _ _ _ _ _
  · rw [AuthRefresh_eq]
    exact gateStep_gateOneRequest _ _ _ _ _ _ _
  · rw [RequestVerification_eq]
    exact gateStep_gateOneRequest _ _ _ _ _ _ _
  · rw [ConfirmVerification_eq]
    exact gateStep_gateOneRequest _ _ _ _ _ _ _
  · rw [RequestPasswordReset_eq]
    exact gateStep_gateOneRequest _ _ _ _ _ _ _
  · rw [ConfirmPasswordReset_eq]
    exact gateStep_gateOneRequest _ _ _ _ _ _ _
  · rw [RequestEmailChange_eq]
    exact gateStep_gateOneRequest _ _ _ _ _ _ _
  · rw [ConfirmEmailChange_eq]
    exact gateStep_gateOneRequest _ _ _ _ _ _ _
  · rw [ListExternalAuths_eq]
    exact gateStep_gateOneRequest _ _ _ _ _ _ _
  · rw [UnlinkExternalAuth_eq]
    exact gateStep_gateOneRequest _ _ _ _ _ _ _

/-- C3 counterexample: a response with status 300 is not 2xx, yet
`RequestVerification` returns success — the code's error test is go-resty's
`IsError` (status > 399), not "non-2xx", so a 3xx response yields no error
carrying its status. -/
theorem claim_c3_counterexample :
    (RequestVerification net300 adecDemo collUsers sessCached "e@x.y").res = Except.ok () ∧
    (RequestVerification net300 adecDemo collUsers sessCached "e@x.y").trace
        = [requestVerificationReq collUsers "e@x.y"] ∧
    (299 : Nat) < 300 ∧
    HTTPResponse.isError ⟨300, "multiple choices"⟩ = false :=
  ⟨rfl, rfl, by decide, by decide⟩

/-- C3 witness: a failed gate is returned as-is with only the gate's own
login request in the trace, and with a cached token a 404 response yields
an error carrying status 404 and the body, after exactly one request. -/
theorem claim_c3_gate_then_one_request_witness :
    (RequestVerification netDown adecDemo collUsers sessAdmin "e@x.y").res
        = Except.error (PBError.transport "authorize" "connection refused") ∧
    (RequestVerification netDown adecDemo collUsers sessAdmin "e@x.y").trace
        = [adminAuthReq sessAdmin "a@b.c" "pw"] ∧
    (ListAuthMethods net404 adecDemo decNone collUsers sessCached).trace
        = [listAuthMethodsReq collUsers] ∧
    (ListAuthMethods net404 adecDemo decNone collUsers sessCached).res
        = Except.error (PBError.server "ListAuthMethods" 404 "not found") := by
  have h1 := (claim_c3_gate_then_one_request netDown adecDemo decNone decNone decNone decNone
      decNone collUsers sessAdmin "u" "p" "g" "c" "v" "r" "e@x.y" "vt" "rt" "np" "pc" "ne"
      "et" "ap" "rid" "pr").2.2.2.2.1.1
      (PBError.transport "authorize" "connection refused") rfl
  have h2 := (claim_c3_gate_then_one_request net404 adecDemo decNone decNone decNone decNone
      decNone collUsers sessCached "u" "p" "g" "c" "v" "r" "e@x.y" "vt" "rt" "np" "pc" "ne"
      "et" "ap" "rid" "pr").1.2 rfl
  exact ⟨h1.1, h1.2.2, h2.1, h2.2 ⟨404, "not found"⟩ rfl rfl⟩

/-! ### Claim C9: the three failure kinds are distinguishable -/

/-- C9: for the CRUD accessor `One` and the auth-flow call
`AuthWithPassword`, the three failure kinds — transport failure, error
status, decode failure — surface as errors of three pairwise distinct
kinds, never collapsed into one; every other operation produces its errors
through the same three constructors. -/
theorem claim_c9_error_kinds_distinguishable {α : Type} (net : Net)
    (adec : String → Option String) (dec : String → Option α)
    (decP : String → Option AuthWithPasswordResponse) (c : Collection) (s : Session)
    (id username password : String) (r : HTTPResponse) (m : String) :
    ((authorize net adec s).1 = Except.ok () →
      (net (oneReq s c id) = TransportResult.fail m →
        (One net adec dec c s id).res = Except.error (PBError.transport "one" m)) ∧
      (net (oneReq s c id) = TransportResult.ok r → r.isError = true →
        (One net adec dec c s id).res
            = Except.error (PBError.server "one" r.statusCode r.body)) ∧
      (net (oneReq s c id) = TransportResult.ok r → r.isError = false →
          dec r.body = Option.none →
        (One net adec dec c s id).res
            = Except.error (PBError.decodeFail "one" r.body))) ∧
    ((authorize net adec s).1 = Except.ok () →
      (net (authWithPasswordReq c username password) = TransportResult.fail m →
        (AuthWithPassword net adec decP c s username password).res
            = Except.error (PBError.transport "auth-with-password" m)) ∧
      (net (authWithPasswordReq c username password) = TransportResult.ok r →
          r.isError = true →
        (AuthWithPassword net adec decP c s username password).res
            = Except.error (PBError.server "auth-with-password" r.statusCode r.body)) ∧
      (net (authWithPasswordReq c username password) = TransportResult.ok r →
          r.isError = false → decP r.body = Option.none →
        (AuthWithPassword net adec decP c s username password).res
            = Except.error (PBError.decodeFail "auth-with-password" r.body))) ∧
    (PBError.transport "one" m).kind ≠ (PBError.server "one" r.statusCode r.body).kind ∧
    (PBError.transport "one" m).kind ≠ (PBError.decodeFail "one" r.body).kind ∧
    (PBError.server "one" r.statusCode r.body).kind
        ≠ (PBError.decodeFail "one" r.body).kind := by
  refine ⟨?_, ?_, by simp [PBError.kind], by simp [PBError.kind], by simp [PBError.kind]⟩
  · intro hok
    rw [One_eq]
    exact ⟨fun hr => gateStep_transport _ _ _ _ _ _ m hok hr,
           fun hr hie => gateStep_server _ _ _ _ _ _ r hok hr hie,
           fun hr hie hd => gateStep_decode _ _ _ _ _ _ r hok hr hie hd⟩
  · intro hok
    rw [AuthWithPassword_eq]
    exact ⟨fun hr => gateStep_transport _ _ _ _ _ _ m hok hr,
           fun hr hie => gateStep_server _ _ _ _ _ _ r hok hr hie,
           fun hr hie hd => gateStep_decode _ _ _ _ _ _ r hok hr hie hd⟩

/-- C9 witness: the three failure kinds produced by `One` at concrete
inputs, each of a different kind. -/
theorem claim_c9_error_kinds_distinguishable_witness :
    (One netDown adecDemo (decNone (α := Record)) collUsers sessCached "id1").res
        = Except.error (PBError.transport "one" "connection refused") ∧
    (One net404 adecDemo (decNone (α := Record)) collUsers sessCached "id1").res
        = Except.error (PBError.server "one" 404 "not found") ∧
    (One netOK adecDemo (decNone (α := Record)) collUsers sessCached "id1").res
        = Except.error (PBError.decodeFail "one" "ok-body") := by
  have h1 := (claim_c9_error_kinds_distinguishable netDown adecDemo (decNone (α := Record))
      decPwDemo collUsers sessCached "id1" "u" "p" ⟨404, "not found"⟩
      "connection refused").1 rfl
  have h2 := (claim_c9_error_kinds_distinguishable net404 adecDemo (decNone (α := Record))
      decPwDemo collUsers sessCached "id1" "u" "p" ⟨404, "not found"⟩
      "connection refused").1 rfl
  have h3 := (claim_c9_error_kinds_distinguishable netOK adecDemo (decNone (α := Record))
      decPwDemo collUsers sessCached "id1" "u" "p" ⟨200, "ok-body"⟩
      "connection refused").1 rfl
  exact ⟨h1.1 rfl, h2.2.1 rfl rfl, h3.2.2 rfl rfl rfl⟩

/-! ### Claim C6: the backup download-URL builder -/

/-- C6 counterexample: at token "t", key "k" the code returns the URL with
path `/api/backups/`, not the claimed `endpoint + "/backups/" + ...`; a
whitespace-only token is also rejected although it is not empty; and with
admin credentials and no cached token the call issues the gate's login
request, so it is not network-free in every case. -/
theorem claim_c6_counterexample :
    (Backup.GetDownloadURL netDown adecDemo urlpId sessCached "t" "k").res
        = Except.ok "http://host/api/backups/k?token=t" ∧
    "http://host/api/backups/k?token=t"
        ≠ "http://host" ++ "/backups/" ++ "k" ++ "?token=" ++ queryEscape "t" ∧
    (Backup.GetDownloadURL netDown adecDemo urlpId sessCached " " "k").res
        = Except.error (PBError.invalidArgument "missing token and/or key") ∧
    (" " : String) ≠ "" ∧
    (Backup.GetDownloadURL netLoginOnly adecDemo urlpId sessAdmin "t" "k").trace
        = [adminAuthReq sessAdmin "a@b.c" "pw"] :=
  ⟨rfl, by decide, rfl, by decide, rfl⟩

/-- C6 (amended): `GetDownloadURL` rejects a blank token or key with an
`invalidArgument` error before the gate, touching nothing and issuing no
request; otherwise it runs the authorizer gate (which may itself perform
the lazy login request) and passes a gate error through; on gate success
it returns the `url.Parse`/`String` round-trip of
`endpoint ++ "/api/backups/" ++ key ++ "?token=" ++ urlEncode token` —
exactly that concatenation whenever the round-trip is the identity (keys
needing no re-encoding) — or the parse error when `url.Parse` fails, in
either case issuing no request of its own. -/
theorem claim_c6_download_url (net : Net) (adec : String → Option String)
    (urlp : String → Except String String) (s : Session)
    (token key : String) (e : PBError) (u m : String) :
    (goTrimSpace token = "" ∨ goTrimSpace key = "" →
      Backup.GetDownloadURL net adec urlp s token key
        = ⟨Except.error (PBError.invalidArgument "missing token and/or key"), s, []⟩) ∧
    (¬(goTrimSpace token = "" ∨ goTrimSpace key = "") →
      ((authorize net adec s).1 = Except.error e →
        Backup.GetDownloadURL net adec urlp s token key
          = ⟨Except.error e, (authorize net adec s).2.1, (authorize net adec s).2.2⟩) ∧
      ((authorize net adec s).1 = Except.ok () →
        downloadURLInput s token key
            = s.url ++ "/api/backups/" ++ key ++ "?token=" ++ queryEscape token ∧
        (urlp (downloadURLInput s token key) = Except.ok u →
          (Backup.GetDownloadURL net adec urlp s token key).res = Except.ok u ∧
          (Backup.GetDownloadURL net adec urlp s token key).trace
              = (authorize net adec s).2.2) ∧
        (urlp (downloadURLInput s token key) = Except.error m →
          (Backup.GetDownloadURL net adec urlp s token key).res
              = Except.error (PBError.invalidArgument m) ∧
          (Backup.GetDownloadURL net adec urlp s token key).trace
              = (authorize net adec s).2.2))) := by
  constructor
  · intro h
    rw [Backup.GetDownloadURL, if_pos h]
  · intro hn
    constructor
    · intro he
      rcases hg : authorize net adec s with ⟨a, s1, tr⟩
      rw [hg] at he
      obtain rfl : a = Except.error e := he
      rw [Backup.GetDownloadURL, if_neg hn, hg]
    · intro hok
      rcases hg : authorize net adec s with ⟨a, s1, tr⟩
      rw [hg] at hok
      obtain rfl : a = Except.ok () := hok
      refine ⟨rfl, ?_, ?_⟩
      · intro hu
        rw [Backup.GetDownloadURL, if_neg hn, hg, hu]
        exact ⟨rfl, rfl⟩
      · intro hu
        rw [Backup.GetDownloadURL, if_neg hn, hg, hu]
        exact ⟨rfl, rfl⟩

/-- C6 witness: a blank token is rejected with no request; with a cached
token and a URL the round-trip leaves unchanged the result is exactly the
`/api/backups/` concatenation with an empty trace; a parse failure
surfaces as an error, still with no request. -/
theorem claim_c6_download_url_witness :
    Backup.GetDownloadURL netDown adecDemo urlpId sessCached "" "k"
        = ⟨Except.error (PBError.invalidArgument "missing token and/or key"), sessCached, []⟩ ∧
    (Backup.GetDownloadURL netDown adecDemo urlpId sessCached "tok" "key").res
        = Except.ok "http://host/api/backups/key?token=tok" ∧
    (Backup.GetDownloadURL netDown adecDemo urlpId sessCached "tok" "key").trace = [] ∧
    (Backup.GetDownloadURL netDown adecDemo urlpFail sessCached "tok" "key").res
        = Except.error (PBError.invalidArgument "invalid URL escape") ∧
    (Backup.GetDownloadURL netDown adecDemo urlpFail sessCached "tok" "key").trace = [] := by
  have h1 := (claim_c6_download_url netDown adecDemo urlpId sessCached "" "k"
      (PBError.invalidArgument "x") "u" "m").1 (Or.inl (by decide))
  have h2 := ((claim_c6_download_url netDown adecDemo urlpId sessCached "tok" "key"
      (PBError.invalidArgument "x") "http://host/api/backups/key?token=tok" "m").2
      (by decide)).2 rfl
  have h3 := ((claim_c6_download_url netDown adecDemo urlpFail sessCached "tok" "key"
      (PBError.invalidArgument "x") "u" "invalid URL escape").2 (by decide)).2 rfl
  have h4 := h2.2.1 rfl
  have h5 := h3.2.2 rfl
  exact ⟨h1, h4.1, h4.2, h5.1, h5.2⟩

/-! ### Claim C5: FullList aggregates all pages in order -/

/-- Run against a well-behaved paging server from page `q+1` with the first
`q` pages already accumulated, the paged-aggregation loop returns the whole
item list whenever the fuel covers the remaining pages. -/
theorem fullList_loop_pagedServer {α : Type} (items : List α) (perPage : Nat)
    (hp : 0 < perPage) :
    ∀ fuel q : Nat, items.length ≤ q * perPage + fuel * perPage →
      FullList.loop (pagedServer items perPage) perPage fuel (q + 1)
          (items.take (q * perPage)) = items := by
  intro fuel
  induction fuel with
  | zero =>
    intro q h
    rw [Nat.zero_mul, Nat.add_zero] at h
    exact List.take_of_length_le h
  | succ n ih =>
    intro q h
    simp only [FullList.loop, pagedServer]
    rw [Nat.add_sub_cancel, ← List.take_add]
    by_cases hstop : ((items.drop (q * perPage)).take perPage).length < perPage ∨
        items.length ≤ (items.take (q * perPage + perPage)).length
    · rw [if_pos hstop]
      apply List.take_of_length_le
      rcases hstop with h1 | h2
      · rw [List.length_take, List.length_drop] at h1
        rcases Nat.le_total perPage (items.length - q * perPage) with hc | hc
        · rw [Nat.min_eq_left hc] at h1
          omega
        · omega
      · rw [List.length_take] at h2
        exact (Nat.le_min.mp h2).1
    · rw [if_neg hstop]
      have hi : q * perPage + perPage = (q + 1) * perPage := by ring
      rw [hi]
      apply ih (q + 1)
      have he : (q + 1) * perPage + n * perPage = q * perPage + (n + 1) * perPage := by ring
      exact le_of_le_of_eq h he.symm

/-- C5 (spec-modelled `FullList`): against a well-behaved paging server
over a fixed item list, `FullList` returns exactly the server's items in
server-returned order (no client-side re-sorting) and the length of the
concatenation equals the server-reported total item count. -/
theorem claim_c5_fullList_concatenates (α : Type) (items : List α) (perPage : Nat)
    (hp : 0 < perPage) :
    FullList (pagedServer items perPage) perPage (items.length + 1) = items ∧
    (FullList (pagedServer items perPage) perPage (items.length + 1)).length
        = (pagedServer items perPage 1).2 := by
  have h2 : items.length + 1 ≤ (items.length + 1) * perPage :=
    Nat.le_mul_of_pos_right _ hp
  have hc : items.length ≤ 0 * perPage + (items.length + 1) * perPage := by
    calc items.length ≤ items.length + 1 := Nat.le_succ _
    _ ≤ (items.length + 1) * perPage := h2
    _ = 0 * perPage + (items.length + 1) * perPage := by rw [Nat.zero_mul, Nat.zero_add]
  have hmain := fullList_loop_pagedServer items perPage hp (items.length + 1) 0 hc
  rw [Nat.zero_mul, List.take_zero] at hmain
  constructor
  · exact hmain
  · rw [show FullList (pagedServer items perPage) perPage (items.length + 1) = items
      from hmain]
    rfl

/-- C5 witness: five items fetched two per page come back whole, in order,
with length equal to the reported total. -/
theorem claim_c5_fullList_concatenates_witness :
    FullList (pagedServer [10, 20, 30, 40, 50] 2) 2 6 = [10, 20, 30, 40, 50] ∧
    (FullList (pagedServer [10, 20, 30, 40, 50] 2) 2 6).length
        = (pagedServer [10, 20, 30, 40, 50] 2 1).2 :=
  claim_c5_fullList_concatenates Nat [10, 20, 30, 40, 50] 2 (by decide)

end PB
